import Mathlib

/-!
Shallow embedding of the komob Modbus-TCP server protocol engine
(src/komob.hpp) and verification of its specification claims.

Modelling conventions:
* `vector<uint8_t>` byte buffers become `List Nat`; where a value is
  truncated to a machine width in the source (`uint8_t`, `uint16_t`,
  `uint32_t` casts and parameter conversions), the embedding applies the
  corresponding `% 256`, `% 65536`, `% 4294967296`.
* A `RegisterTable` backend is a pair of pure functions: `read` returns
  `some value` when the backend owns the address (C++ `read` returning
  `true` with an out-parameter) and `write` returns `true` when the
  backend accepts the write.  The chain-of-responsibility lookup over
  `register_tables` is the explicit recursion `chain_read` / `chain_write`.
* Register writes are side effects in the source.  The embedding makes
  them observable by returning, next to the response PDU, the ordered
  trace of chain-level write attempts `(address, value, accepted)` that
  the handler performed.  The source performs each accepted write
  immediately and has no rollback path, so the trace is exactly the set
  of registers left written.
* The socket byte stream of `handle_single_request` becomes a `List Nat`
  of available input bytes; `read_exact` succeeds only when enough bytes
  are present, and the returned `Option` is `none` exactly when the C++
  function returns `false` (close the connection) without having produced
  a response.
-/

namespace Komob

/-- Backend interface from `class RegisterTable`: `read` yields the value
when the backend owns the address, `write` reports acceptance. -/
structure RegisterTable where
  read : Nat → Option Nat
  write : Nat → Nat → Bool

/-- Embedding of `enum class DataWidth`, values `W16` and `W32`. -/
inductive DataWidth where
  | W16 : DataWidth
  | W32 : DataWidth
deriving DecidableEq

/-- The server state used by the PDU dispatcher: configured data width and
the ordered backend chain (`data_width`, `register_tables`). -/
structure Server where
  data_width : DataWidth
  register_tables : List RegisterTable

def EX_ILLEGAL_FUNCTION : Nat := 1

def EX_ILLEGAL_ADDRESS : Nat := 2

def EX_ILLEGAL_VALUE : Nat := 3

def EX_SLAVE_FAILURE : Nat := 4

def FC_READ_HOLDING_REGISTERS : Nat := 3

def FC_WRITE_SINGLE_REGISTER : Nat := 6

def FC_WRITE_MULTIPLE_REGISTERS : Nat := 16

/-- Source `get_u16`: `(p[0] << 8) | p[1]` cast to `uint16_t`. -/
def get_u16 (b0 b1 : Nat) : Nat := ((b0 <<< 8) ||| b1) % 65536

/-- Source `get_u32`: `(p[0] << 24) | (p[1] << 16) | (p[2] << 8) | p[3]` cast to
`uint32_t`. -/
def get_u32 (b0 b1 b2 b3 : Nat) : Nat :=
  ((b0 <<< 24) ||| (b1 <<< 16) ||| (b2 <<< 8) ||| b3) % 4294967296

/-- Source `push_u16`: append `(v >> 8) & 0xff` and `v & 0xff` of the `uint16_t`
argument. -/
def push_u16 (v : Nat) : List Nat :=
  [(v % 65536) >>> 8 % 256, (v % 65536) % 256]

/-- Source `push_u32`: append the four big-endian bytes of the `uint32_t`
argument. -/
def push_u32 (v : Nat) : List Nat :=
  [(v % 4294967296) >>> 24 % 256, (v % 4294967296) >>> 16 % 256,
   (v % 4294967296) >>> 8 % 256, (v % 4294967296) % 256]

/-- The big-endian 16-bit field of a PDU at byte offset `k`
(`get_u16(&request[k])`). -/
def pdu_u16 (request : List Nat) (k : Nat) : Nat :=
  get_u16 (request.getD k 0) (request.getD (k + 1) 0)

/-- The `width` local of the handlers: 2 logical address steps per Modbus
register pair in 32-bit mode, 1 in 16-bit mode. -/
def width_count (srv : Server) : Nat :=
  match srv.data_width with
  | DataWidth.W32 => 2
  | DataWidth.W16 => 1

/-- First-match-wins read over the backend chain (the `for` loop over
`register_tables` calling `read`). -/
def chain_read (tables : List RegisterTable) (address : Nat) : Option Nat :=
  match tables with
  | [] => none
  | t :: rest =>
    match t.read address with
    | some value => some value
    | none => chain_read rest address

/-- First-match-wins write over the backend chain (the `for` loop over
`register_tables` calling `write`). -/
def chain_write (tables : List RegisterTable) (address value : Nat) : Bool :=
  match tables with
  | [] => false
  | t :: rest =>
    if t.write address value then true else chain_write rest address value

/-- Source `Server::exception_pdu`: `[function_code | 0x80][exception_code]`,
both bytes stored into `uint8_t`. -/
def exception_pdu (function_code exception_code : Nat) : List Nat :=
  [(function_code ||| 128) % 256, exception_code % 256]

/-- The value-gathering loop of `read_holding_registers`:
`for (i = 0; i*width < quantity; i++)` querying `start + i`, packing each
value at the configured width; `none` on the first backend miss (the
exception return aborts the loop and discards the partial output). -/
def read_loop (srv : Server) (start : Nat) : Nat → Nat → Option (List Nat)
  | 0, _ => some []
  | count + 1, i =>
    match chain_read srv.register_tables (start + i) with
    | none => none
    | some value =>
      match read_loop srv start count (i + 1) with
      | none => none
      | some rest =>
        some ((match srv.data_width with
               | DataWidth.W32 => push_u32 value
               | DataWidth.W16 => push_u16 value) ++ rest)

/-- Source `Server::read_holding_registers` (request `[FC][Start][Qty]`). -/
def read_holding_registers (srv : Server) (request : List Nat) : List Nat :=
  if request.length ≠ 5 then
    exception_pdu (request.getD 0 0) EX_ILLEGAL_VALUE
  else if pdu_u16 request 3 % width_count srv ≠ 0 then
    exception_pdu (request.getD 0 0) EX_ILLEGAL_VALUE
  else if 128 < pdu_u16 request 3 then
    exception_pdu (request.getD 0 0) EX_ILLEGAL_VALUE
  else
    match read_loop srv (pdu_u16 request 1) (pdu_u16 request 3 / width_count srv) 0 with
    | none => exception_pdu (request.getD 0 0) EX_ILLEGAL_ADDRESS
    | some data =>
      request.getD 0 0 % 256 :: (pdu_u16 request 3 * 2) % 256 :: data

/-- Source `Server::write_single_register` (request `[FC][Addr][Val]`); the
second component is the trace of chain-level write attempts. -/
def write_single_register (srv : Server) (request : List Nat) :
    List Nat × List (Nat × Nat × Bool) :=
  if request.length ≠ 5 then
    (exception_pdu (request.getD 0 0) EX_ILLEGAL_VALUE, [])
  else if srv.data_width ≠ DataWidth.W16 then
    (exception_pdu (request.getD 0 0) EX_ILLEGAL_VALUE, [])
  else if chain_write srv.register_tables (pdu_u16 request 1) (pdu_u16 request 3) then
    (request, [(pdu_u16 request 1, pdu_u16 request 3, true)])
  else
    (exception_pdu (request.getD 0 0) EX_ILLEGAL_ADDRESS,
     [(pdu_u16 request 1, pdu_u16 request 3, false)])

/-- The value written by `write_multiple_registers` for logical register
`i`: bytes at `offset = 6 + 2*i*width`, decoded at the configured width. -/
def wm_value (srv : Server) (request : List Nat) (i : Nat) : Nat :=
  match srv.data_width with
  | DataWidth.W32 =>
    get_u32 (request.getD (6 + 2 * i * width_count srv) 0)
      (request.getD (6 + 2 * i * width_count srv + 1) 0)
      (request.getD (6 + 2 * i * width_count srv + 2) 0)
      (request.getD (6 + 2 * i * width_count srv + 3) 0)
  | DataWidth.W16 =>
    get_u16 (request.getD (6 + 2 * i * width_count srv) 0)
      (request.getD (6 + 2 * i * width_count srv + 1) 0)

/-- The write loop of `write_multiple_registers`:
`for (i = 0; i*width < quantity; i++)` writing `wm_value` to `start + i`
through the chain; stops at the first miss.  Returns the success flag and
the ordered trace of attempts `(address, value, accepted)`. -/
def write_loop (srv : Server) (request : List Nat) (start : Nat) :
    Nat → Nat → Bool × List (Nat × Nat × Bool)
  | 0, _ => (true, [])
  | count + 1, i =>
    if chain_write srv.register_tables (start + i) (wm_value srv request i) then
      ((write_loop srv request start count (i + 1)).fst,
       (start + i, wm_value srv request i, true) ::
         (write_loop srv request start count (i + 1)).snd)
    else
      (false, [(start + i, wm_value srv request i, false)])

/-- Source `Server::write_multiple_registers` (request
`[FC][Start][Qty][ByteCount][Values...]`); the second component is the
trace of chain-level write attempts. -/
def write_multiple_registers (srv : Server) (request : List Nat) :
    List Nat × List (Nat × Nat × Bool) :=
  if request.length < 6 then
    (exception_pdu (request.getD 0 0) EX_ILLEGAL_VALUE, [])
  else if request.getD 5 0 ≠ pdu_u16 request 3 * 2 then
    (exception_pdu (request.getD 0 0) EX_ILLEGAL_VALUE, [])
  else if pdu_u16 request 3 % width_count srv ≠ 0 then
    (exception_pdu (request.getD 0 0) EX_ILLEGAL_VALUE, [])
  else if request.length ≠ 6 + request.getD 5 0 then
    (exception_pdu (request.getD 0 0) EX_ILLEGAL_VALUE, [])
  else if (write_loop srv request (pdu_u16 request 1)
      (pdu_u16 request 3 / width_count srv) 0).fst then
    (request.getD 0 0 % 256 ::
       (push_u16 (pdu_u16 request 1) ++ push_u16 (pdu_u16 request 3)),
     (write_loop srv request (pdu_u16 request 1)
       (pdu_u16 request 3 / width_count srv) 0).snd)
  else
    (exception_pdu (request.getD 0 0) EX_ILLEGAL_ADDRESS,
     (write_loop srv request (pdu_u16 request 1)
       (pdu_u16 request 3 / width_count srv) 0).snd)

/-- Source `Server::dispatch_pdu`: route on the function code; empty request and
unknown function codes get the illegal-function exception. -/
def dispatch_pdu (srv : Server) (request : List Nat) :
    List Nat × List (Nat × Nat × Bool) :=
  if request.length < 1 then
    (exception_pdu 0 EX_ILLEGAL_FUNCTION, [])
  else if request.getD 0 0 = FC_READ_HOLDING_REGISTERS then
    (read_holding_registers srv request, [])
  else if request.getD 0 0 = FC_WRITE_SINGLE_REGISTER then
    write_single_register srv request
  else if request.getD 0 0 = FC_WRITE_MULTIPLE_REGISTERS then
    write_multiple_registers srv request
  else
    (exception_pdu (request.getD 0 0) EX_ILLEGAL_FUNCTION, [])

/-- MBAP header fields (lines 338-341 of the source). -/
structure MBAPHeader where
  transaction_id : Nat
  protocol_id : Nat
  length : Nat
  unit_id : Nat

/-- Decode the 7 MBAP header bytes with `get_u16` as in
`handle_single_request`. -/
def decode_header (h : List Nat) : MBAPHeader where
  transaction_id := get_u16 (h.getD 0 0) (h.getD 1 0)
  protocol_id := get_u16 (h.getD 2 0) (h.getD 3 0)
  length := get_u16 (h.getD 4 0) (h.getD 5 0)
  unit_id := h.getD 6 0

/-- Encode the response MBAP header (lines 388-391): transaction id,
protocol id fixed to 0, length `1 + payload_len`, unit id. -/
def encode_header (transaction_id payload_len unit_id : Nat) : List Nat :=
  push_u16 transaction_id ++ push_u16 0 ++ push_u16 (1 + payload_len) ++
    [unit_id % 256]

/-- Source `read_exact` over a finite stream of available bytes: the `n` bytes
read and the remaining stream, or `none` when the peer closes first. -/
def read_exact (stream : List Nat) (n : Nat) : Option (List Nat × List Nat) :=
  if n ≤ stream.length then some (stream.take n, stream.drop n) else none

/-- Source `Server::handle_single_request` over the modelled byte stream:
`none` exactly where the C++ function returns `false` before writing a
response, `some resp` for the full response frame written back. -/
def handle_single_request (srv : Server) (input : List Nat) : Option (List Nat) :=
  match read_exact input 7 with
  | none => none
  | some (header, rest) =>
    if (decode_header header).protocol_id ≠ 0 then none
    else if (decode_header header).length < 2 then none
    else if 256 < (if 1 < (decode_header header).length then
        (decode_header header).length - 1 else 0) then none
    else
      match read_exact rest (if 1 < (decode_header header).length then
          (decode_header header).length - 1 else 0) with
      | none => none
      | some (pdu, _) =>
        some (encode_header (decode_header header).transaction_id
            (dispatch_pdu srv pdu).fst.length (decode_header header).unit_id ++
          (dispatch_pdu srv pdu).fst)

/-- A backend that owns every address: reads return 0, writes are
accepted. -/
def tableAll : RegisterTable where
  read := fun _ => some 0
  write := fun _ _ => true

/-- A backend that owns only address 0 (reads 5 there). -/
def tableZero : RegisterTable where
  read := fun a => if a = 0 then some 5 else none
  write := fun a _ => a == 0

def srvAll16 : Server := ⟨DataWidth.W16, [tableAll]⟩

def srvAll32 : Server := ⟨DataWidth.W32, [tableAll]⟩

def srvZero16 : Server := ⟨DataWidth.W16, [tableZero]⟩

lemma get_u16_eq (b0 b1 : Nat) (h0 : b0 < 256) (h1 : b1 < 256) :
    get_u16 b0 b1 = 256 * b0 + b1 := by
  unfold get_u16
  have h1' : b1 < 2 ^ 8 := by simpa using h1
  rw [Nat.shiftLeft_eq, Nat.mul_comm b0 (2 ^ 8), ← Nat.mul_add_lt_is_or h1' b0]
  have h8 : (2 : Nat) ^ 8 = 256 := by norm_num
  rw [h8]
  omega

lemma get_u16_lt (b0 b1 : Nat) : get_u16 b0 b1 < 65536 := by
  unfold get_u16
  omega

lemma push_u16_get_u16 (b0 b1 : Nat) (h0 : b0 < 256) (h1 : b1 < 256) :
    push_u16 (get_u16 b0 b1) = [b0, b1] := by
  rw [get_u16_eq b0 b1 h0 h1]
  unfold push_u16
  have hmod : (256 * b0 + b1) % 65536 = 256 * b0 + b1 := by omega
  rw [hmod, Nat.shiftRight_eq_div_pow]
  have h8 : (2 : Nat) ^ 8 = 256 := by norm_num
  rw [h8]
  simp only [List.cons.injEq, and_true]
  constructor
  · omega
  · omega

set_option maxRecDepth 20000 in
/-- C1. The claim asserts that every 16-bit-mode read with
`quantity ∈ [1,128]` over owned addresses is answered with a byte-count
byte equal to `quantity*2`.  At the boundary `quantity = 128` the code
accepts the request (the guard is `quantity > 128`) but the byte-count
`static_cast<uint8_t>(256)` truncates to 0, contradicting the guard's own
rationale that the byte count fit 8 bits: against a backend owning every
address (value 0), the response to `03 00 00 00 80` is function code 3,
byte-count byte 0, then 256 data bytes. -/
theorem c1_quantity128_bytecount_zero :
    read_holding_registers srvAll16 [3, 0, 0, 0, 128] =
      3 :: 0 :: List.replicate 256 0 := by
  rfl

/-- C2 counterexample. The claim asserts the response PDU to the unknown
function code 0x99 is `F9 01`; on a concrete server the dispatcher
answers `99 01` instead (0x99 already has bit 0x80 set, so OR 0x80 leaves
it unchanged). -/
theorem c2_counterexample_fc99 :
    (dispatch_pdu srvAll16 [153]).fst ≠ [249, 1] := by
  decide

/-- C2 (amended): a request PDU whose function code is the unknown value
0x99 is answered with the exception PDU `99 01` — function code OR 0x80
(which leaves 0x99 unchanged, its high bit being already set) followed by
exception code 1 (illegal function). -/
theorem c2_unknown_fc99_exception (srv : Server) (rest : List Nat) :
    (dispatch_pdu srv (153 :: rest)).fst = [153, 1] := by
  simp [dispatch_pdu, exception_pdu, FC_READ_HOLDING_REGISTERS,
    FC_WRITE_SINGLE_REGISTER, FC_WRITE_MULTIPLE_REGISTERS, EX_ILLEGAL_FUNCTION]

/-- C6: a 5-byte Write Single Register request under a 32-bit-width
configuration is answered with exception code 3 (illegal value) whatever
the backend chain owns, and the handler performs no backend write at all
(empty write trace — the width check precedes the write loop). -/
theorem c6_write_single_w32_illegal_value (srv : Server) (request : List Nat)
    (hw : srv.data_width = DataWidth.W32)
    (hfc : request.getD 0 0 = 6)
    (hlen : request.length = 5) :
    dispatch_pdu srv request = (exception_pdu 6 3, []) := by
  unfold dispatch_pdu write_single_register
  rw [hfc, hlen, hw]
  simp [FC_READ_HOLDING_REGISTERS, FC_WRITE_SINGLE_REGISTER, EX_ILLEGAL_VALUE]

/-- C6 witness: the concrete 32-bit server over an all-owning backend
rejects `06 00 01 00 05` with `86 03` and an empty write trace. -/
theorem c6_witness :
    dispatch_pdu srvAll32 [6, 0, 1, 0, 5] = (exception_pdu 6 3, []) :=
  c6_write_single_w32_illegal_value srvAll32 [6, 0, 1, 0, 5]
    (by rfl) (by rfl) (by rfl)

/-- C5: a 5-byte Write Single Register request in 16-bit mode whose
address is accepted by some backend in the chain is answered with the
request PDU itself, byte for byte. -/
theorem c5_write_single_echo (srv : Server) (request : List Nat)
    (hw : srv.data_width = DataWidth.W16)
    (hfc : request.getD 0 0 = 6)
    (hlen : request.length = 5)
    (hacc : chain_write srv.register_tables (pdu_u16 request 1) (pdu_u16 request 3) = true) :
    (dispatch_pdu srv request).fst = request := by
  unfold dispatch_pdu write_single_register
  rw [hfc, hlen, hw, hacc]
  simp [FC_READ_HOLDING_REGISTERS, FC_WRITE_SINGLE_REGISTER]

/-- C5 witness: the 16-bit all-owning server echoes `06 00 01 00 05`. -/
theorem c5_witness :
    (dispatch_pdu srvAll16 [6, 0, 1, 0, 5]).fst = [6, 0, 1, 0, 5] :=
  c5_write_single_echo srvAll16 [6, 0, 1, 0, 5] (by rfl) (by rfl) (by rfl) (by rfl)

/-- C7: a Write Multiple Registers request whose byte count disagrees
with `quantity*2`, whose quantity is not a multiple of the width's
register-group size, or whose total size is not `6 + byte_count`, is
answered with exception code 3 (illegal value) and the handler performs
no backend write at all (empty write trace). -/
theorem c7_write_multiple_shape_illegal_value (srv : Server) (request : List Nat)
    (hfc : request.getD 0 0 = 16)
    (hbad : request.getD 5 0 ≠ pdu_u16 request 3 * 2 ∨
      pdu_u16 request 3 % width_count srv ≠ 0 ∨
      request.length ≠ 6 + request.getD 5 0) :
    dispatch_pdu srv request = (exception_pdu 16 3, []) := by
  have hne : ¬ request.length < 1 := by
    intro h
    have he : request = [] := List.length_eq_zero.mp (by omega)
    rw [he] at hfc
    simp [List.getD] at hfc
  unfold dispatch_pdu write_multiple_registers
  rw [hfc]
  rw [if_neg hne,
    if_neg (show ¬ (16 : Nat) = FC_READ_HOLDING_REGISTERS by decide),
    if_neg (show ¬ (16 : Nat) = FC_WRITE_SINGLE_REGISTER by decide),
    if_pos (show (16 : Nat) = FC_WRITE_MULTIPLE_REGISTERS by decide)]
  by_cases h6 : request.length < 6
  · rw [if_pos h6]
    rfl
  · rw [if_neg h6]
    by_cases hbc : request.getD 5 0 ≠ pdu_u16 request 3 * 2
    · rw [if_pos hbc]
      rfl
    · rw [if_neg hbc]
      by_cases hq : pdu_u16 request 3 % width_count srv ≠ 0
      · rw [if_pos hq]
        rfl
      · rw [if_neg hq]
        have hsz : request.length ≠ 6 + request.getD 5 0 := by tauto
        rw [if_pos hsz]
        rfl

/-- C7 witness: byte count 3 with quantity 1 on the 16-bit all-owning
server yields `90 03` and an empty write trace. -/
theorem c7_witness :
    dispatch_pdu srvAll16 [16, 0, 0, 0, 1, 3] = (exception_pdu 16 3, []) :=
  c7_write_multiple_shape_illegal_value srvAll16 [16, 0, 0, 0, 1, 3]
    (by rfl) (Or.inl (by decide))

lemma getD_take (l : List Nat) (i n : Nat) (h : i < n) :
    (l.take n).getD i 0 = l.getD i 0 := by
  simp [List.getD, List.getElem?_take, h]

/-- C4: whenever the decoded MBAP header has a nonzero protocol id, a
length below 2, or a PDU length `length - 1` above 256, the connection
handler reports the connection unusable (`none`, i.e. `false` in the
source) without producing any response bytes — the transport-fatal path
sends no Modbus exception. -/
theorem c4_transport_fatal_no_response (srv : Server) (input : List Nat)
    (h7 : 7 ≤ input.length)
    (hbad : get_u16 (input.getD 2 0) (input.getD 3 0) ≠ 0 ∨
      get_u16 (input.getD 4 0) (input.getD 5 0) < 2 ∨
      256 < get_u16 (input.getD 4 0) (input.getD 5 0) - 1) :
    handle_single_request srv input = none := by
  unfold handle_single_request read_exact
  rw [if_pos h7]
  dsimp only [decode_header]
  rw [getD_take input 2 7 (by omega), getD_take input 3 7 (by omega),
    getD_take input 4 7 (by omega), getD_take input 5 7 (by omega)]
  by_cases hpid : get_u16 (input.getD 2 0) (input.getD 3 0) ≠ 0
  · rw [if_pos hpid]
  · rw [if_neg hpid]
    by_cases hlen : get_u16 (input.getD 4 0) (input.getD 5 0) < 2
    · rw [if_pos hlen]
    · rw [if_neg hlen]
      have hbig : 256 < get_u16 (input.getD 4 0) (input.getD 5 0) - 1 := by tauto
      rw [if_pos (show 1 < get_u16 (input.getD 4 0) (input.getD 5 0) by omega)]
      rw [if_pos hbig]

/-- C4 witness: a frame whose header carries protocol id 1 is dropped
with no response. -/
theorem c4_witness :
    handle_single_request srvAll16 [0, 0, 0, 1, 0, 2, 1, 3] = none :=
  c4_transport_fatal_no_response srvAll16 [0, 0, 0, 1, 0, 2, 1, 3]
    (by decide) (Or.inl (by decide))

lemma read_loop_none (srv : Server) (start : Nat) :
    ∀ count i, (∃ j, i ≤ j ∧ j < i + count ∧
      chain_read srv.register_tables (start + j) = none) →
    read_loop srv start count i = none := by
  intro count
  induction count with
  | zero =>
    intro i h
    rcases h with ⟨j, h1, h2, _⟩
    omega
  | succ n ih =>
    intro i h
    rcases h with ⟨j, hij, hlt, hnone⟩
    cases hcr : chain_read srv.register_tables (start + i) with
    | none => simp [read_loop, hcr]
    | some value =>
      have hji : j ≠ i := by
        intro e
        rw [e] at hnone
        rw [hnone] at hcr
        cases hcr
      have hrec : read_loop srv start n (i + 1) = none :=
        ih (i + 1) ⟨j, by omega, by omega, hnone⟩
      simp [read_loop, hcr, hrec]

/-- C8: a Read Holding Registers request of valid shape (5 bytes,
`quantity` a multiple of the register-group size and at most 128) whose
queried addresses `start + i` include one that no backend in the chain
owns is answered with exactly the 2-byte exception PDU `83 02` (illegal
address) — no register value bytes read before the miss appear. -/
theorem c8_read_miss_illegal_address (srv : Server) (request : List Nat)
    (hfc : request.getD 0 0 = 3)
    (hlen : request.length = 5)
    (hmod : pdu_u16 request 3 % width_count srv = 0)
    (hqty : pdu_u16 request 3 ≤ 128)
    (hmiss : ∃ i, i < pdu_u16 request 3 / width_count srv ∧
      chain_read srv.register_tables (pdu_u16 request 1 + i) = none) :
    (dispatch_pdu srv request).fst = exception_pdu 3 2 := by
  have hloop : read_loop srv (pdu_u16 request 1)
      (pdu_u16 request 3 / width_count srv) 0 = none := by
    rcases hmiss with ⟨i, hi, hnone⟩
    exact read_loop_none srv (pdu_u16 request 1) _ 0 ⟨i, Nat.zero_le i, by omega, hnone⟩
  unfold dispatch_pdu read_holding_registers
  rw [hfc, hlen, hloop]
  rw [if_neg (show ¬ (5 : Nat) < 1 by decide),
    if_pos (show (3 : Nat) = FC_READ_HOLDING_REGISTERS by decide)]
  rw [if_neg (show ¬ (5 : Nat) ≠ 5 by decide),
    if_neg (show ¬ pdu_u16 request 3 % width_count srv ≠ 0 by simp [hmod]),
    if_neg (show ¬ 128 < pdu_u16 request 3 by omega)]
  rfl

/-- C8 witness: reading 2 registers at 0 on a backend that owns only
address 0 yields exactly `83 02`. -/
theorem c8_witness :
    (dispatch_pdu srvZero16 [3, 0, 0, 0, 2]).fst = exception_pdu 3 2 :=
  c8_read_miss_illegal_address srvZero16 [3, 0, 0, 0, 2]
    (by rfl) (by rfl) (by rfl) (by decide) ⟨1, by decide, by rfl⟩

lemma write_loop_fail (srv : Server) (request : List Nat) (start : Nat) :
    ∀ k count i, k < count →
    (∀ j, j < k →
      chain_write srv.register_tables (start + (i + j)) (wm_value srv request (i + j)) = true) →
    chain_write srv.register_tables (start + (i + k)) (wm_value srv request (i + k)) = false →
    write_loop srv request start count i =
      (false,
       ((List.range' i k).map fun j => (start + j, wm_value srv request j, true)) ++
         [(start + (i + k), wm_value srv request (i + k), false)]) := by
  intro k
  induction k with
  | zero =>
    intro count i hk hpre hmiss
    match count, hk with
    | n + 1, _ =>
      rw [show i + 0 = i from rfl] at hmiss
      simp [write_loop, hmiss]
  | succ k ih =>
    intro count i hk hpre hmiss
    match count, hk with
    | n + 1, hk =>
      have h0 : chain_write srv.register_tables (start + i) (wm_value srv request i) = true := by
        have h := hpre 0 (Nat.succ_pos k)
        rwa [show i + 0 = i from rfl] at h
      have hpre' : ∀ j, j < k →
          chain_write srv.register_tables (start + (i + 1 + j))
            (wm_value srv request (i + 1 + j)) = true := by
        intro j hj
        have h := hpre (j + 1) (by omega)
        have e : i + (j + 1) = i + 1 + j := by omega
        rwa [e] at h
      have hmiss' : chain_write srv.register_tables (start + (i + 1 + k))
          (wm_value srv request (i + 1 + k)) = false := by
        have e : i + (k + 1) = i + 1 + k := by omega
        rwa [e] at hmiss
      have hrec := ih n (i + 1) (by omega) hpre' hmiss'
      have e : i + 1 + k = i + (k + 1) := by omega
      rw [e] at hrec
      simp only [write_loop, h0, if_pos, hrec, List.range'_succ, List.map_cons,
        List.cons_append]

/-- C3: when a Write Multiple Registers request of valid shape meets its
first backend miss at logical register `k > 0`, the dispatcher answers
with the illegal-address exception (code 2) and the write trace shows the
`k` earlier registers written through the chain followed by the single
rejected attempt — nothing is rolled back (the model records every write
the source performs, and the source has no rollback path). -/
theorem c3_write_multiple_miss_no_rollback (srv : Server) (request : List Nat) (k : Nat)
    (hfc : request.getD 0 0 = 16)
    (hbc : request.getD 5 0 = pdu_u16 request 3 * 2)
    (hmod : pdu_u16 request 3 % width_count srv = 0)
    (hsize : request.length = 6 + request.getD 5 0)
    (hk0 : 0 < k)
    (hklt : k < pdu_u16 request 3 / width_count srv)
    (hpre : ∀ i, i < k →
      chain_write srv.register_tables (pdu_u16 request 1 + i) (wm_value srv request i) = true)
    (hmiss : chain_write srv.register_tables (pdu_u16 request 1 + k)
      (wm_value srv request k) = false) :
    dispatch_pdu srv request =
      (exception_pdu 16 2,
       ((List.range k).map fun i =>
          (pdu_u16 request 1 + i, wm_value srv request i, true)) ++
         [(pdu_u16 request 1 + k, wm_value srv request k, false)]) := by
  have hloop := write_loop_fail srv request (pdu_u16 request 1) k
    (pdu_u16 request 3 / width_count srv) 0 hklt
    (by intro j hj; simpa using hpre j hj)
    (by simpa using hmiss)
  rw [Nat.zero_add] at hloop
  unfold dispatch_pdu write_multiple_registers
  rw [hfc]
  rw [if_neg (show ¬ request.length < 1 by omega),
    if_neg (show ¬ (16 : Nat) = FC_READ_HOLDING_REGISTERS by decide),
    if_neg (show ¬ (16 : Nat) = FC_WRITE_SINGLE_REGISTER by decide),
    if_pos (show (16 : Nat) = FC_WRITE_MULTIPLE_REGISTERS by decide)]
  rw [if_neg (show ¬ request.length < 6 by omega),
    if_neg (show ¬ request.getD 5 0 ≠ pdu_u16 request 3 * 2 from fun h => h hbc),
    if_neg (show ¬ pdu_u16 request 3 % width_count srv ≠ 0 from fun h => h hmod),
    if_neg (show ¬ request.length ≠ 6 + request.getD 5 0 from fun h => h hsize)]
  rw [hloop]
  simp [List.range_eq_range', EX_ILLEGAL_ADDRESS]

/-- C3 witness: writing registers 0 and 1 on a backend that accepts only
address 0 leaves register 0 written (value 7), rejects register 1
(value 9), and answers `90 02`. -/
theorem c3_witness :
    dispatch_pdu srvZero16 [16, 0, 0, 0, 2, 4, 0, 7, 0, 9] =
      (exception_pdu 16 2, [(0, 7, true), (1, 9, false)]) := by
  have h := c3_write_multiple_miss_no_rollback srvZero16
    [16, 0, 0, 0, 2, 4, 0, 7, 0, 9] 1
    (by rfl) (by rfl) (by rfl) (by rfl) (by decide) (by decide)
    (by intro i hi
        match i, hi with
        | 0, _ => rfl)
    (by rfl)
  simpa using h

/-- C9: decoding a well-formed 7-byte MBAP header (bytes below 256,
protocol id 0, length at least 2) and re-encoding its fields — protocol
id fixed to 0, length written as `1 + payload_len` with
`payload_len = length - 1` — reproduces the original 7 bytes. -/
theorem c9_header_roundtrip (b0 b1 b2 b3 b4 b5 b6 : Nat)
    (h0 : b0 < 256) (h1 : b1 < 256) (h2 : b2 < 256) (h3 : b3 < 256)
    (h4 : b4 < 256) (h5 : b5 < 256) (h6 : b6 < 256)
    (hpid : (decode_header [b0, b1, b2, b3, b4, b5, b6]).protocol_id = 0)
    (hlen : 2 ≤ (decode_header [b0, b1, b2, b3, b4, b5, b6]).length) :
    encode_header (decode_header [b0, b1, b2, b3, b4, b5, b6]).transaction_id
        ((decode_header [b0, b1, b2, b3, b4, b5, b6]).length - 1)
        (decode_header [b0, b1, b2, b3, b4, b5, b6]).unit_id =
      [b0, b1, b2, b3, b4, b5, b6] := by
  have hpid' : get_u16 b2 b3 = 0 := hpid
  rw [get_u16_eq b2 b3 h2 h3] at hpid'
  have hb2 : b2 = 0 := by omega
  have hb3 : b3 = 0 := by omega
  have hlen' : 2 ≤ get_u16 b4 b5 := hlen
  have ht : (decode_header [b0, b1, b2, b3, b4, b5, b6]).transaction_id
      = get_u16 b0 b1 := rfl
  have hl : (decode_header [b0, b1, b2, b3, b4, b5, b6]).length
      = get_u16 b4 b5 := rfl
  have hu : (decode_header [b0, b1, b2, b3, b4, b5, b6]).unit_id = b6 := rfl
  rw [ht, hl, hu]
  unfold encode_header
  rw [show 1 + (get_u16 b4 b5 - 1) = get_u16 b4 b5 by omega]
  rw [push_u16_get_u16 b0 b1 h0 h1, push_u16_get_u16 b4 b5 h4 h5]
  subst hb2
  subst hb3
  simp [push_u16, Nat.mod_eq_of_lt h6]

/-- C9 witness: the header `00 01 00 00 00 02 07` round-trips. -/
theorem c9_witness :
    encode_header (decode_header [0, 1, 0, 0, 0, 2, 7]).transaction_id
        ((decode_header [0, 1, 0, 0, 0, 2, 7]).length - 1)
        (decode_header [0, 1, 0, 0, 0, 2, 7]).unit_id =
      [0, 1, 0, 0, 0, 2, 7] :=
  c9_header_roundtrip 0 1 0 0 0 2 7 (by decide) (by decide) (by decide)
    (by decide) (by decide) (by decide) (by decide) (by decide) (by decide)

/-- The response-PDU invariant of C10: the response is non-empty, its
first byte is the request's function code (0 for an empty request) as-is
or with bit 0x80 set, and any response whose first byte has bit 0x80 set
(an exception response) is exactly 2 bytes long. -/
def resp_ok (request response : List Nat) : Prop :=
  0 < response.length ∧
  (response.getD 0 0 = request.getD 0 0 ∨
    response.getD 0 0 = request.getD 0 0 ||| 128) ∧
  (Nat.testBit (response.getD 0 0) 7 = false ∨ response.length = 2)

lemma lor128_lt (fc : Nat) (h : fc < 256) : fc ||| 128 < 256 := by
  have h8 : (256 : Nat) = 2 ^ 8 := by norm_num
  rw [h8] at h ⊢
  exact Nat.bitwise_lt h (by norm_num)

lemma resp_ok_exception (request : List Nat) (ec : Nat)
    (h : request.getD 0 0 < 256) :
    resp_ok request (exception_pdu (request.getD 0 0) ec) := by
  unfold resp_ok exception_pdu
  have hmod : (request.getD 0 0 ||| 128) % 256 = request.getD 0 0 ||| 128 :=
    Nat.mod_eq_of_lt (lor128_lt (request.getD 0 0) h)
  refine ⟨by simp, Or.inr ?_, Or.inr rfl⟩
  rw [List.getD_cons_zero]
  exact hmod

lemma testBit7_lor128 (fc : Nat) : Nat.testBit (fc ||| 128) 7 = true := by
  have h128 : Nat.testBit 128 7 = true := by decide
  simp [Nat.testBit_lor, h128]

lemma resp_ok_rhr (srv : Server) (request : List Nat)
    (hfc : request.getD 0 0 = 3) :
    resp_ok request (read_holding_registers srv request) := by
  have hb : request.getD 0 0 < 256 := by rw [hfc]; decide
  unfold read_holding_registers
  split_ifs with hc1 hc2 hc3
  · exact resp_ok_exception request EX_ILLEGAL_VALUE hb
  · exact resp_ok_exception request EX_ILLEGAL_VALUE hb
  · exact resp_ok_exception request EX_ILLEGAL_VALUE hb
  · cases hres : read_loop srv (pdu_u16 request 1)
        (pdu_u16 request 3 / width_count srv) 0 with
    | none => exact resp_ok_exception request EX_ILLEGAL_ADDRESS hb
    | some data =>
      unfold resp_ok
      rw [hfc]
      refine ⟨by simp, Or.inl (by simp [List.getD]), Or.inl (by simp [List.getD]; decide)⟩

lemma resp_ok_wsr (srv : Server) (request : List Nat)
    (hfc : request.getD 0 0 = 6) :
    resp_ok request (write_single_register srv request).fst := by
  have hb : request.getD 0 0 < 256 := by rw [hfc]; decide
  unfold write_single_register
  split_ifs with hc1 hc2 hc3
  · exact resp_ok_exception request EX_ILLEGAL_VALUE hb
  · exact resp_ok_exception request EX_ILLEGAL_VALUE hb
  · unfold resp_ok
    have h5 : request.length = 5 := not_ne_iff.mp hc1
    refine ⟨by simp [h5], Or.inl rfl, Or.inl (by rw [hfc]; decide)⟩
  · exact resp_ok_exception request EX_ILLEGAL_ADDRESS hb

lemma resp_ok_wmr (srv : Server) (request : List Nat)
    (hfc : request.getD 0 0 = 16) :
    resp_ok request (write_multiple_registers srv request).fst := by
  have hb : request.getD 0 0 < 256 := by rw [hfc]; decide
  unfold write_multiple_registers
  split_ifs with hc1 hc2 hc3 hc4 hc5
  · exact resp_ok_exception request EX_ILLEGAL_VALUE hb
  · exact resp_ok_exception request EX_ILLEGAL_VALUE hb
  · exact resp_ok_exception request EX_ILLEGAL_VALUE hb
  · exact resp_ok_exception request EX_ILLEGAL_VALUE hb
  · unfold resp_ok
    rw [hfc]
    refine ⟨by simp, Or.inl (by simp [List.getD]), Or.inl (by simp [List.getD]; decide)⟩
  · exact resp_ok_exception request EX_ILLEGAL_ADDRESS hb

/-- C10: for every request PDU of wire bytes, the dispatcher's response
is non-empty, its first byte is the request's function code (0 for the
empty request) either unchanged or with bit 0x80 set, and every response
whose first byte has bit 0x80 set — an exception response — is exactly 2
bytes long. -/
theorem c10_dispatch_response_invariant (srv : Server) (request : List Nat)
    (hbytes : ∀ b ∈ request, b < 256) :
    resp_ok request (dispatch_pdu srv request).fst := by
  unfold dispatch_pdu
  by_cases hemp : request.length < 1
  · have he : request = [] := List.length_eq_zero.mp (by omega)
    subst he
    rw [if_pos hemp]
    show resp_ok [] [(0 ||| 128) % 256, EX_ILLEGAL_FUNCTION % 256]
    unfold resp_ok
    refine ⟨by simp, Or.inr (by simp [List.getD]), Or.inr rfl⟩
  · have hb : request.getD 0 0 < 256 := by
      cases request with
      | nil => simp at hemp
      | cons a l =>
        have : a ∈ a :: l := List.mem_cons_self a l
        simpa [List.getD] using hbytes a this
    rw [if_neg hemp]
    by_cases h3 : request.getD 0 0 = FC_READ_HOLDING_REGISTERS
    · rw [if_pos h3]
      exact resp_ok_rhr srv request h3
    · rw [if_neg h3]
      by_cases h6 : request.getD 0 0 = FC_WRITE_SINGLE_REGISTER
      · rw [if_pos h6]
        exact resp_ok_wsr srv request h6
      · rw [if_neg h6]
        by_cases h16 : request.getD 0 0 = FC_WRITE_MULTIPLE_REGISTERS
        · rw [if_pos h16]
          exact resp_ok_wmr srv request h16
        · rw [if_neg h16]
          show resp_ok request (exception_pdu (request.getD 0 0) EX_ILLEGAL_FUNCTION)
          exact resp_ok_exception request EX_ILLEGAL_FUNCTION hb

/-- C10 witness: the invariant at the concrete unknown-function request
`0x99` on the 16-bit all-owning server. -/
theorem c10_witness :
    resp_ok [153] (dispatch_pdu srvAll16 [153]).fst :=
  c10_dispatch_response_invariant srvAll16 [153] (by decide)

end Komob
